import Mathlib

/-!
Verification development for a PIC12F629/675 microcontroller simulator.

The definitions below are a shallow embedding of the simulator source
(`gpio.rs`, `timer.rs`, `wdt.rs`, `interrupt.rs`, `memory.rs`,
`instruction.rs`, `cpu.rs`, `executor.rs`, `simulator.rs`,
`hexloader.rs`).  Machine integers (`u8`, `u16`, `u32`) are embedded as
`Nat` with the masks and wrap-arounds the source performs written out
explicitly (`%`, `&&&`, `|||`, `<<<`, `>>>`).  Rust methods that mutate
`&mut self` become functions returning the updated structure; functions
returning `Result` become `Except`.
-/

set_option maxRecDepth 4000

/-- GPIO port controller shadow state, from `gpio.rs` (`struct Gpio`). -/
structure Gpio where
  port_value : Nat
  tris : Nat
  weak_pullup : Nat
  external_pins : Nat
  peripheral_output_enable : Nat
  peripheral_output_value : Nat
deriving DecidableEq

/-- Power-on state of the port, from `Gpio::new`. -/
def Gpio.new : Gpio :=
  { port_value := 0x00, tris := 0x3F, weak_pullup := 0x00,
    external_pins := 0x3F, peripheral_output_enable := 0x00,
    peripheral_output_value := 0x00 }

/-- From `Gpio::reset`. -/
def Gpio.reset (_g : Gpio) : Gpio := Gpio.new

/-- From `Gpio::write_gpio`. -/
def Gpio.write_gpio (g : Gpio) (value : Nat) : Gpio :=
  { g with port_value := value &&& 0x3F }

/-- One bit of the resolved pin value, from the loop body of `Gpio::read_gpio`. -/
def Gpio.read_gpio_bit (g : Gpio) (bit : Nat) : Nat :=
  let mask := 1 <<< bit
  if g.peripheral_output_enable &&& mask ≠ 0 then
    if g.peripheral_output_value &&& mask ≠ 0 then mask else 0
  else if g.tris &&& mask ≠ 0 then
    if g.weak_pullup &&& mask ≠ 0 then
      if g.external_pins &&& mask ≠ 0 then mask else 0
    else
      if g.external_pins &&& mask ≠ 0 then mask else 0
  else
    if g.port_value &&& mask ≠ 0 then mask else 0

/-- From `Gpio::read_gpio`: OR of the six per-pin resolved bits. -/
def Gpio.read_gpio (g : Gpio) : Nat :=
  g.read_gpio_bit 0 ||| g.read_gpio_bit 1 ||| g.read_gpio_bit 2 |||
  g.read_gpio_bit 3 ||| g.read_gpio_bit 4 ||| g.read_gpio_bit 5

/-- From `Gpio::write_tris`: GP3 is forced to input. -/
def Gpio.write_tris (g : Gpio) (value : Nat) : Gpio :=
  { g with tris := (value &&& 0x3F) ||| 0x08 }

/-- From `Gpio::read_tris`. -/
def Gpio.read_tris (g : Gpio) : Nat := g.tris

/-- From `Gpio::write_wpu`: GP3 and GP5 have no pull-ups. -/
def Gpio.write_wpu (g : Gpio) (value : Nat) : Gpio :=
  { g with weak_pullup := value &&& 0x37 }

/-- From `Gpio::read_wpu`. -/
def Gpio.read_wpu (g : Gpio) : Nat := g.weak_pullup

/-- Timer0 state, from `timer.rs` (`struct Timer0`). -/
structure Timer0 where
  counter : Nat
  prescaler : Nat
  prescaler_assigned_to_wdt : Bool
  prescaler_rate : Nat
  clock_source_external : Bool
  edge_select : Bool
deriving DecidableEq

/-- From `Timer0::new`. -/
def Timer0.new : Timer0 :=
  { counter := 0, prescaler := 0, prescaler_assigned_to_wdt := false,
    prescaler_rate := 2, clock_source_external := false, edge_select := false }

/-- From `Timer0::reset`. -/
def Timer0.reset (_t : Timer0) : Timer0 := Timer0.new

/-- From `Timer0::write_counter`: writing TMR0 also clears the prescaler. -/
def Timer0.write_counter (t : Timer0) (value : Nat) : Timer0 :=
  { t with counter := value, prescaler := 0 }

/-- From `Timer0::configure_from_option`: decode T0CS, T0SE, PSA, PS bits. -/
def Timer0.configure_from_option (t : Timer0) (option_reg : Nat) : Timer0 :=
  let ps_bits := option_reg &&& 0x07
  let rate :=
    if ps_bits = 0 then 2 else if ps_bits = 1 then 4
    else if ps_bits = 2 then 8 else if ps_bits = 3 then 16
    else if ps_bits = 4 then 32 else if ps_bits = 5 then 64
    else if ps_bits = 6 then 128 else 256
  { t with
    clock_source_external := option_reg &&& 0x20 ≠ 0,
    edge_select := option_reg &&& 0x10 ≠ 0,
    prescaler_assigned_to_wdt := option_reg &&& 0x08 ≠ 0,
    prescaler_rate := rate,
    prescaler := 0 }

/-- From `Timer0::tick`; the returned Bool is the 8-bit overflow signal. -/
def Timer0.tick (t : Timer0) : Timer0 × Bool :=
  if t.clock_source_external then (t, false)
  else if t.prescaler_assigned_to_wdt then
    ({ t with counter := (t.counter + 1) % 256 }, t.counter + 1 ≥ 256)
  else
    let p := t.prescaler + 1
    if p ≥ t.prescaler_rate then
      ({ t with prescaler := 0, counter := (t.counter + 1) % 256 },
       t.counter + 1 ≥ 256)
    else
      ({ t with prescaler := p }, false)

/-- Timer1 state, from `timer.rs` (`struct Timer1`). -/
structure Timer1 where
  counter : Nat
  enabled : Bool
  clock_source_external : Bool
  prescaler_rate : Nat
  prescaler : Nat
  oscillator_enabled : Bool
  sync_external_clock : Bool
deriving DecidableEq

/-- From `Timer1::new`. -/
def Timer1.new : Timer1 :=
  { counter := 0, enabled := false, clock_source_external := false,
    prescaler_rate := 1, prescaler := 0, oscillator_enabled := false,
    sync_external_clock := true }

/-- From `Timer1::reset`. -/
def Timer1.reset (_t : Timer1) : Timer1 := Timer1.new

/-- From `Timer1::read_low`. -/
def Timer1.read_low (t : Timer1) : Nat := t.counter &&& 0xFF

/-- From `Timer1::read_high`. -/
def Timer1.read_high (t : Timer1) : Nat := (t.counter >>> 8) &&& 0xFF

/-- From `Timer1::write_low`. -/
def Timer1.write_low (t : Timer1) (value : Nat) : Timer1 :=
  { t with counter := (t.counter &&& 0xFF00) ||| value }

/-- From `Timer1::write_high`. -/
def Timer1.write_high (t : Timer1) (value : Nat) : Timer1 :=
  { t with counter := (t.counter &&& 0x00FF) ||| (value <<< 8) }

/-- From `Timer1::configure_from_t1con`. -/
def Timer1.configure_from_t1con (t : Timer1) (t1con : Nat) : Timer1 :=
  let prescaler_bits := (t1con >>> 4) &&& 0x03
  let rate :=
    if prescaler_bits = 0 then 1 else if prescaler_bits = 1 then 2
    else if prescaler_bits = 2 then 4 else 8
  { t with
    prescaler_rate := rate,
    oscillator_enabled := t1con &&& 0x08 ≠ 0,
    sync_external_clock := t1con &&& 0x04 = 0,
    clock_source_external := t1con &&& 0x02 ≠ 0,
    enabled := t1con &&& 0x01 ≠ 0 }

/-- From `Timer1::tick`; the Bool is the 16-bit overflow signal. -/
def Timer1.tick (t : Timer1) : Timer1 × Bool :=
  if !t.enabled then (t, false)
  else if t.clock_source_external then (t, false)
  else
    let p := t.prescaler + 1
    if p ≥ t.prescaler_rate then
      ({ t with prescaler := 0, counter := (t.counter + 1) % 65536 },
       t.counter + 1 ≥ 65536)
    else
      ({ t with prescaler := p }, false)

/-- From `timer.rs` (`struct TimerController`). -/
structure TimerController where
  timer0 : Timer0
  timer1 : Timer1
deriving DecidableEq

/-- From `TimerController::new`. -/
def TimerController.new : TimerController :=
  { timer0 := Timer0.new, timer1 := Timer1.new }

/-- From `TimerController::reset`. -/
def TimerController.reset (_t : TimerController) : TimerController :=
  TimerController.new

/-- From `TimerController::tick`: returns (tmr0 overflow, tmr1 overflow). -/
def TimerController.tick (t : TimerController) : TimerController × Bool × Bool :=
  let (t0, o0) := t.timer0.tick
  let (t1, o1) := t.timer1.tick
  ({ timer0 := t0, timer1 := t1 }, o0, o1)

/-- Watchdog timer state, from `wdt.rs` (`struct Wdt`). -/
structure Wdt where
  counter : Nat
  enabled : Bool
  prescaler : Nat
  prescaler_rate : Nat
  prescaler_assigned : Bool
  timeout_period : Nat
deriving DecidableEq

/-- Nominal WDT period in instruction cycles, from `Wdt::NOMINAL_PERIOD`. -/
def Wdt.NOMINAL_PERIOD : Nat := 18000

/-- From `Wdt::new`. -/
def Wdt.new : Wdt :=
  { counter := 0, enabled := true, prescaler := 0, prescaler_rate := 1,
    prescaler_assigned := false, timeout_period := Wdt.NOMINAL_PERIOD }

/-- From `Wdt::reset`. -/
def Wdt.reset (_w : Wdt) : Wdt := Wdt.new

/-- From `Wdt::clear` (the CLRWDT path). -/
def Wdt.clear (w : Wdt) : Wdt :=
  { w with counter := 0, prescaler := 0 }

/-- From `Wdt::configure_prescaler`: decode PSA and PS bits of OPTION_REG. -/
def Wdt.configure_prescaler (w : Wdt) (option_reg : Nat) : Wdt :=
  let assigned := option_reg &&& 0x08 ≠ 0
  if assigned then
    let ps_bits := option_reg &&& 0x07
    let rate :=
      if ps_bits = 0 then 1 else if ps_bits = 1 then 2
      else if ps_bits = 2 then 4 else if ps_bits = 3 then 8
      else if ps_bits = 4 then 16 else if ps_bits = 5 then 32
      else if ps_bits = 6 then 64 else 128
    { w with prescaler_assigned := true, prescaler_rate := rate,
             timeout_period := Wdt.NOMINAL_PERIOD * rate, prescaler := 0 }
  else
    { w with prescaler_assigned := false, prescaler_rate := 1,
             timeout_period := Wdt.NOMINAL_PERIOD, prescaler := 0 }

/-- From `Wdt::tick`; the Bool signals a WDT timeout.  The `u32` counter
never approaches `2 ^ 32` before the timeout check resets it, so plain
`Nat` increments are used. -/
def Wdt.tick (w : Wdt) : Wdt × Bool :=
  if !w.enabled then (w, false)
  else
    let w1 :=
      if w.prescaler_assigned ∧ w.prescaler_rate > 1 then
        if w.prescaler + 1 ≥ w.prescaler_rate then
          { w with prescaler := 0, counter := w.counter + 1 }
        else
          { w with prescaler := w.prescaler + 1 }
      else
        { w with counter := w.counter + 1 }
    if w1.counter ≥ w1.timeout_period then
      ({ w1 with counter := 0, prescaler := 0 }, true)
    else
      (w1, false)

/-- Run `n` WDT ticks; the Bool records whether any tick signalled timeout. -/
def Wdt.run (w : Wdt) : Nat → Wdt × Bool
  | 0 => (w, false)
  | n + 1 =>
    let prev := w.run n
    let t := prev.1.tick
    (t.1, prev.2 || t.2)

/-- Interrupt controller state, from `interrupt.rs` (`struct InterruptController`). -/
structure InterruptController where
  gie_saved : Bool
  interrupt_triggered : Bool
  interrupt_vector : Nat
deriving DecidableEq

/-- From `InterruptController::new`. -/
def InterruptController.new : InterruptController :=
  { gie_saved := false, interrupt_triggered := false, interrupt_vector := 0x0004 }

/-- From `InterruptController::reset` (the vector field is not touched). -/
def InterruptController.reset (ic : InterruptController) : InterruptController :=
  { ic with gie_saved := false, interrupt_triggered := false }

/-- From `InterruptController::check_interrupts`: pure check over
(INTCON, PIE1, PIR1) returning (should_interrupt, vector). -/
def InterruptController.check_interrupts (ic : InterruptController)
    (intcon pie1 pir1 : Nat) : Bool × Nat :=
  if intcon &&& 0x80 = 0 then (false, 0)
  else if intcon &&& 0x20 ≠ 0 ∧ intcon &&& 0x04 ≠ 0 then (true, ic.interrupt_vector)
  else if intcon &&& 0x10 ≠ 0 ∧ intcon &&& 0x02 ≠ 0 then (true, ic.interrupt_vector)
  else if intcon &&& 0x08 ≠ 0 ∧ intcon &&& 0x01 ≠ 0 then (true, ic.interrupt_vector)
  else if intcon &&& 0x40 ≠ 0 then
    if pie1 &&& 0x01 ≠ 0 ∧ pir1 &&& 0x01 ≠ 0 then (true, ic.interrupt_vector)
    else if pie1 &&& 0x08 ≠ 0 ∧ pir1 &&& 0x08 ≠ 0 then (true, ic.interrupt_vector)
    else if pie1 &&& 0x40 ≠ 0 ∧ pir1 &&& 0x40 ≠ 0 then (true, ic.interrupt_vector)
    else if pie1 &&& 0x80 ≠ 0 ∧ pir1 &&& 0x80 ≠ 0 then (true, ic.interrupt_vector)
    else (false, 0)
  else (false, 0)

/-- From `InterruptController::enter_isr`. -/
def InterruptController.enter_isr (ic : InterruptController) : InterruptController :=
  { ic with gie_saved := true, interrupt_triggered := true }

/-- From `InterruptController::exit_isr` (called on RETFIE). -/
def InterruptController.exit_isr (ic : InterruptController) : InterruptController :=
  { ic with interrupt_triggered := false }

/-- From `InterruptController::in_isr`. -/
def InterruptController.in_isr (ic : InterruptController) : Bool :=
  ic.interrupt_triggered

/-- Memory system, from `memory.rs` (`struct Memory`).  The backing stores
are lists of the sizes declared in the source: 1024 program words, 256
data bytes (`DATA_MEMORY_SIZE`), an 8-entry stack, 128 EEPROM bytes. -/
structure Memory where
  program_memory : List Nat
  data_memory : List Nat
  stack : List Nat
  stack_pointer : Nat
  eeprom : List Nat
deriving DecidableEq

/-- From `Memory::new`: everything zero-initialised. -/
def Memory.new : Memory :=
  { program_memory := List.replicate 1024 0,
    data_memory := List.replicate 256 0,
    stack := List.replicate 8 0,
    stack_pointer := 0,
    eeprom := List.replicate 128 0 }

/-- From `Memory::read_program`: address masked to 10 bits. -/
def Memory.read_program (m : Memory) (address : Nat) : Nat :=
  m.program_memory.getD (address &&& 0x3FF) 0

/-- From `Memory::write_program`: value masked to 14 bits. -/
def Memory.write_program (m : Memory) (address value : Nat) : Memory :=
  { m with program_memory := m.program_memory.set (address &&& 0x3FF) (value &&& 0x3FFF) }

/-- From `Memory::load_program`: copy up to 1024 words, each masked to 14 bits. -/
def Memory.load_program_aux (pm : List Nat) (i : Nat) : List Nat → List Nat
  | [] => pm
  | wd :: rest =>
    if i < 1024 then Memory.load_program_aux (pm.set i (wd &&& 0x3FFF)) (i + 1) rest
    else pm

/-- From `Memory::load_program`. -/
def Memory.load_program (m : Memory) (program : List Nat) : Memory :=
  { m with program_memory := Memory.load_program_aux m.program_memory 0 program }

/-- From `Memory::read_data`: address masked to 7 bits. -/
def Memory.read_data (m : Memory) (address : Nat) : Nat :=
  m.data_memory.getD (address &&& 0x7F) 0

/-- From `Memory::write_data`. -/
def Memory.write_data (m : Memory) (address value : Nat) : Memory :=
  { m with data_memory := m.data_memory.set (address &&& 0x7F) value }

/-- From `Memory::read_data_banked`: addresses below 0x0C, and every Bank 0
access, use the raw address; a Bank 1 access at or above 0x0C uses
`(address | 0x80) & 0x7F`. -/
def Memory.read_data_banked (m : Memory) (address bank : Nat) : Nat :=
  let addr := if address < 0x0C ∨ bank = 0 then address
              else (address ||| 0x80) &&& 0x7F
  m.data_memory.getD addr 0

/-- From `Memory::write_data_banked`. -/
def Memory.write_data_banked (m : Memory) (address value bank : Nat) : Memory :=
  let addr := if address < 0x0C ∨ bank = 0 then address
              else (address ||| 0x80) &&& 0x7F
  { m with data_memory := m.data_memory.set addr value }

/-- Shift the 8 stack slots down by one, discarding the oldest; from the
overflow branch of `Memory::push_stack`. -/
def Memory.shift_stack_down (st : List Nat) : List Nat :=
  st.drop 1 ++ [0]

/-- From `Memory::push_stack`: address masked to 13 bits; on overflow the
oldest entry is discarded and the new address goes in slot 7. -/
def Memory.push_stack (m : Memory) (address : Nat) : Memory :=
  let addr := address &&& 0x1FFF
  if m.stack_pointer ≥ 8 then
    { m with stack := (Memory.shift_stack_down m.stack).set 7 addr }
  else
    { m with stack := m.stack.set m.stack_pointer addr,
             stack_pointer := m.stack_pointer + 1 }

/-- From `Memory::pop_stack`: underflow yields 0. -/
def Memory.pop_stack (m : Memory) : Nat × Memory :=
  if m.stack_pointer = 0 then (0, m)
  else (m.stack.getD (m.stack_pointer - 1) 0,
        { m with stack_pointer := m.stack_pointer - 1 })

/-- From `Memory::read_eeprom`. -/
def Memory.read_eeprom (m : Memory) (address : Nat) : Nat :=
  m.eeprom.getD (address &&& 0x7F) 0

/-- From `Memory::write_eeprom`. -/
def Memory.write_eeprom (m : Memory) (address value : Nat) : Memory :=
  { m with eeprom := m.eeprom.set (address &&& 0x7F) value }

/-- From `Memory::reset`: data memory and the stack pointer are cleared;
program memory and EEPROM survive. -/
def Memory.reset (m : Memory) : Memory :=
  { m with data_memory := List.replicate 256 0, stack_pointer := 0 }

example : (Gpio.new.write_tris 0x30).tris = 0x38 := by decide
example : ((Timer0.new.write_counter 0xFF).tick).2 = false := by decide
example : ((Wdt.new.configure_prescaler 0x0A).timeout_period) = 72000 := by decide
example :
    (InterruptController.new.check_interrupts 0xA4 0 0) = (true, 4) := by decide

/-- The 35 PIC instructions, from `instruction.rs` (`enum Instruction`). -/
inductive Instruction where
  | ADDWF (f d : Nat)
  | ANDWF (f d : Nat)
  | CLRF (f : Nat)
  | CLRW
  | COMF (f d : Nat)
  | DECF (f d : Nat)
  | DECFSZ (f d : Nat)
  | INCF (f d : Nat)
  | INCFSZ (f d : Nat)
  | IORWF (f d : Nat)
  | MOVF (f d : Nat)
  | MOVWF (f : Nat)
  | NOP
  | RLF (f d : Nat)
  | RRF (f d : Nat)
  | SUBWF (f d : Nat)
  | SWAPF (f d : Nat)
  | XORWF (f d : Nat)
  | BCF (f b : Nat)
  | BSF (f b : Nat)
  | BTFSC (f b : Nat)
  | BTFSS (f b : Nat)
  | ADDLW (k : Nat)
  | ANDLW (k : Nat)
  | CALL (k : Nat)
  | CLRWDT
  | GOTO (k : Nat)
  | IORLW (k : Nat)
  | MOVLW (k : Nat)
  | RETFIE
  | RETLW (k : Nat)
  | RETURN
  | SLEEP
  | SUBLW (k : Nat)
  | XORLW (k : Nat)
deriving DecidableEq

/-- From `InstructionDecoder::decode`: map a 14-bit word to an instruction,
checking exact control opcodes, then CALL/GOTO, then byte-oriented,
bit-oriented and literal groups, in the order of the source. -/
def InstructionDecoder.decode (word : Nat) : Except String Instruction :=
  if word = 0x0064 then Except.ok Instruction.CLRWDT
  else if word = 0x0009 then Except.ok Instruction.RETFIE
  else if word = 0x0008 then Except.ok Instruction.RETURN
  else if word = 0x0063 then Except.ok Instruction.SLEEP
  else
    let top3 := (word >>> 11) &&& 0x07
    if top3 = 4 then Except.ok (Instruction.CALL (word &&& 0x7FF))
    else if top3 = 5 then Except.ok (Instruction.GOTO (word &&& 0x7FF))
    else
      let opcode := (word >>> 8) &&& 0x3F
      if opcode &&& 0x30 = 0x00 then
        let d := (word >>> 7) &&& 0x01
        let f := word &&& 0x7F
        if opcode = 0x07 then Except.ok (Instruction.ADDWF f d)
        else if opcode = 0x05 then Except.ok (Instruction.ANDWF f d)
        else if opcode = 0x01 ∧ d = 1 then Except.ok (Instruction.CLRF f)
        else if opcode = 0x01 ∧ d = 0 ∧ f = 0 then Except.ok Instruction.CLRW
        else if opcode = 0x09 then Except.ok (Instruction.COMF f d)
        else if opcode = 0x03 then Except.ok (Instruction.DECF f d)
        else if opcode = 0x0B then Except.ok (Instruction.DECFSZ f d)
        else if opcode = 0x0A then Except.ok (Instruction.INCF f d)
        else if opcode = 0x0F then Except.ok (Instruction.INCFSZ f d)
        else if opcode = 0x04 then Except.ok (Instruction.IORWF f d)
        else if opcode = 0x08 then Except.ok (Instruction.MOVF f d)
        else if opcode = 0x00 ∧ d = 1 then Except.ok (Instruction.MOVWF f)
        else if opcode = 0x00 ∧ d = 0 ∧ f = 0 then Except.ok Instruction.NOP
        else if opcode = 0x0D then Except.ok (Instruction.RLF f d)
        else if opcode = 0x0C then Except.ok (Instruction.RRF f d)
        else if opcode = 0x02 then Except.ok (Instruction.SUBWF f d)
        else if opcode = 0x0E then Except.ok (Instruction.SWAPF f d)
        else if opcode = 0x06 then Except.ok (Instruction.XORWF f d)
        else Except.error "Unknown byte-oriented instruction"
      else if opcode &&& 0x30 = 0x10 then
        let b := (word >>> 7) &&& 0x07
        let f := word &&& 0x7F
        let sel := (word >>> 10) &&& 0x03
        if sel = 0 then Except.ok (Instruction.BCF f b)
        else if sel = 1 then Except.ok (Instruction.BSF f b)
        else if sel = 2 then Except.ok (Instruction.BTFSC f b)
        else if sel = 3 then Except.ok (Instruction.BTFSS f b)
        else Except.error "Unknown bit-oriented instruction"
      else
        let k := word &&& 0xFF
        if opcode = 0x3E then Except.ok (Instruction.ADDLW k)
        else if opcode = 0x39 then Except.ok (Instruction.ANDLW k)
        else if opcode = 0x38 then Except.ok (Instruction.IORLW k)
        else if 0x30 ≤ opcode ∧ opcode ≤ 0x33 then Except.ok (Instruction.MOVLW k)
        else if opcode = 0x3C then Except.ok (Instruction.SUBLW k)
        else if opcode = 0x3A then Except.ok (Instruction.XORLW k)
        else if 0x34 ≤ opcode ∧ opcode ≤ 0x37 then Except.ok (Instruction.RETLW k)
        else Except.error "Unknown instruction"

/-- CPU state, from `cpu.rs` (`struct Cpu`). -/
structure Cpu where
  memory : Memory
  w : Nat
  pc : Nat
  cycles : Nat
  gpio : Gpio
  timers : TimerController
  interrupts : InterruptController
  wdt : Wdt
  sleeping : Bool
deriving DecidableEq

/-- From `Cpu::new`. -/
def Cpu.new : Cpu :=
  { memory := Memory.new, w := 0, pc := 0, cycles := 0, gpio := Gpio.new,
    timers := TimerController.new, interrupts := InterruptController.new,
    wdt := Wdt.new, sleeping := false }

/-- From `Cpu::get_bank`: RP0 (bit 5) of the STATUS byte in data memory. -/
def Cpu.get_bank (c : Cpu) : Nat :=
  if c.memory.read_data 0x03 &&& (1 <<< 5) ≠ 0 then 1 else 0

/-- From `Cpu::read_register`: dispatch on the special register addresses
INDF 0x00, PCL 0x02, GPIO 0x05, TRISIO 0x85, WPU 0x95, TMR1L 0x0E,
TMR1H 0x0F; every other address is a banked data-memory read. -/
def Cpu.read_register (c : Cpu) (address : Nat) : Nat :=
  if address = 0x00 then
    c.memory.read_data (c.memory.read_data 0x04)
  else if address = 0x02 then c.pc &&& 0xFF
  else if address = 0x05 then c.gpio.read_gpio
  else if address = 0x85 then c.gpio.read_tris
  else if address = 0x95 then c.gpio.read_wpu
  else if address = 0x0E then c.timers.timer1.read_low
  else if address = 0x0F then c.timers.timer1.read_high
  else c.memory.read_data_banked address c.get_bank

/-- From `Cpu::write_register`: dispatch on INDF 0x00, PCL 0x02, TMR0 0x01,
GPIO 0x05 (TRISIO when Bank 1), WPU 0x95, TMR1L 0x0E, TMR1H 0x0F,
T1CON 0x10, OPTION_REG 0x81; every other address is a banked write. -/
def Cpu.write_register (c : Cpu) (address value : Nat) : Cpu :=
  let bank := c.get_bank
  if address = 0x00 then
    { c with memory := c.memory.write_data (c.memory.read_data 0x04) value }
  else if address = 0x02 then
    { c with pc := ((c.memory.read_data 0x0A) <<< 8) ||| value }
  else if address = 0x01 then
    { c with memory := c.memory.write_data_banked address value bank }
  else if address = 0x05 then
    if bank = 0 then
      { c with gpio := c.gpio.write_gpio value,
               memory := c.memory.write_data address value }
    else
      { c with gpio := c.gpio.write_tris value,
               memory := c.memory.write_data_banked address value bank }
  else if address = 0x95 then
    { c with gpio := c.gpio.write_wpu value,
             memory := c.memory.write_data_banked address value bank }
  else if address = 0x0E then
    { c with timers := { c.timers with timer1 := c.timers.timer1.write_low value } }
  else if address = 0x0F then
    { c with timers := { c.timers with timer1 := c.timers.timer1.write_high value } }
  else if address = 0x10 then
    { c with timers := { c.timers with timer1 := c.timers.timer1.configure_from_t1con value },
             memory := c.memory.write_data address value }
  else if address = 0x81 then
    { c with timers := { c.timers with timer0 := c.timers.timer0.configure_from_option value },
             memory := c.memory.write_data_banked address value bank }
  else
    { c with memory := c.memory.write_data_banked address value bank }

/-- From `Cpu::reset`: zero the core, reset all components, then initialise
STATUS, PCLATH, INTCON, TRISIO, PIE1, PIR1 through the write dispatcher. -/
def Cpu.reset (c : Cpu) : Cpu :=
  let c0 : Cpu :=
    { c with pc := 0, w := 0, cycles := 0, memory := c.memory.reset,
             gpio := c.gpio.reset, timers := c.timers.reset,
             interrupts := c.interrupts.reset, wdt := c.wdt.reset,
             sleeping := false }
  let c1 := c0.write_register 0x03 0x18
  let c2 := c1.write_register 0x0A 0x00
  let c3 := c2.write_register 0x0B 0x00
  let c4 := c3.write_register 0x85 0x3F
  let c5 := c4.write_register 0x8C 0x00
  c5.write_register 0x0C 0x00

/-- From `Cpu::set_status_bit`. -/
def Cpu.set_status_bit (c : Cpu) (bit : Nat) : Cpu :=
  c.write_register 0x03 ((c.read_register 0x03) ||| (1 <<< bit))

/-- From `Cpu::clear_status_bit`; the `u8` complement of the bit mask is
written out as an 8-bit XOR. -/
def Cpu.clear_status_bit (c : Cpu) (bit : Nat) : Cpu :=
  c.write_register 0x03 ((c.read_register 0x03) &&& (0xFF ^^^ (1 <<< bit)))

/-- From `Cpu::test_status_bit`. -/
def Cpu.test_status_bit (c : Cpu) (bit : Nat) : Bool :=
  c.memory.read_data 0x03 &&& (1 <<< bit) ≠ 0

/-- From `Cpu::update_zero_flag`. -/
def Cpu.update_zero_flag (c : Cpu) (result : Nat) : Cpu :=
  if result = 0 then c.set_status_bit 2 else c.clear_status_bit 2

/-- From `Cpu::update_carry_flag`. -/
def Cpu.update_carry_flag (c : Cpu) (carry : Bool) : Cpu :=
  if carry then c.set_status_bit 0 else c.clear_status_bit 0

/-- From `Cpu::update_digit_carry_flag`. -/
def Cpu.update_digit_carry_flag (c : Cpu) (dc : Bool) : Cpu :=
  if dc then c.set_status_bit 1 else c.clear_status_bit 1

/-- From `Cpu::write_w`. -/
def Cpu.write_w (c : Cpu) (value : Nat) : Cpu := { c with w := value }

/-- From `Cpu::set_pc`: masked to 13 bits. -/
def Cpu.set_pc (c : Cpu) (address : Nat) : Cpu :=
  { c with pc := address &&& 0x1FFF }

/-- From `Cpu::increment_pc`. -/
def Cpu.increment_pc (c : Cpu) : Cpu :=
  { c with pc := (c.pc + 1) &&& 0x1FFF }

/-- From `Cpu::push_pc`. -/
def Cpu.push_pc (c : Cpu) : Cpu :=
  { c with memory := c.memory.push_stack c.pc }

/-- From `Cpu::pop_pc`. -/
def Cpu.pop_pc (c : Cpu) : Nat × Cpu :=
  let (a, m) := c.memory.pop_stack
  (a, { c with memory := m })

/-- From `Cpu::add_cycles`. -/
def Cpu.add_cycles (c : Cpu) (cycles : Nat) : Cpu :=
  { c with cycles := c.cycles + cycles }

/-- From `Cpu::fetch_instruction`. -/
def Cpu.fetch_instruction (c : Cpu) : Nat :=
  c.memory.read_program c.pc

/-- From `Cpu::enter_sleep`: set the sleeping flag and clear TO and PD. -/
def Cpu.enter_sleep (c : Cpu) : Cpu :=
  let c1 := { c with sleeping := true }
  c1.write_register 0x03 ((c1.read_register 0x03) &&& (0xFF ^^^ 0x18))

/-- From `Cpu::wake_up`: on interrupt wake TO=1, PD=0; on WDT wake TO=0, PD=1. -/
def Cpu.wake_up (c : Cpu) (by_interrupt : Bool) : Cpu :=
  let c1 := { c with sleeping := false }
  let status := c1.read_register 0x03
  if by_interrupt then
    c1.write_register 0x03 ((status ||| 0x10) &&& (0xFF ^^^ 0x08))
  else
    c1.write_register 0x03 ((status ||| 0x08) &&& (0xFF ^^^ 0x10))

/-- From `Cpu::check_and_handle_interrupts`: when a source is pending, GIE
is set and the controller is not already in an ISR, push PC, clear GIE,
jump to the vector and latch the in-ISR state. -/
def Cpu.check_and_handle_interrupts (c : Cpu) : Cpu × Bool :=
  let intcon := c.read_register 0x0B
  let pie1 := c.read_register 0x8C
  let pir1 := c.read_register 0x0C
  let sv := c.interrupts.check_interrupts intcon pie1 pir1
  if sv.1 && !c.interrupts.in_isr then
    let c1 := c.push_pc
    let intcon2 := c1.read_register 0x0B
    let c2 := c1.write_register 0x0B (intcon2 &&& 0x7F)
    let c3 := c2.set_pc sv.2
    (({ c3 with interrupts := c3.interrupts.enter_isr }), true)
  else
    (c, false)

example : Cpu.new.reset.memory.read_data 0x03 = 0x18 := by decide
example : Cpu.new.reset.memory.read_data_banked 0x85 0 = 0x3F := by decide

/-- Destination write shared by the byte-oriented ops, from the
`if d == 0 { write_w } else { write_register f }` pattern in `executor.rs`. -/
def Executor.write_dest (c : Cpu) (f d result : Nat) : Cpu :=
  if d = 0 then c.write_w result else c.write_register f result

/-- From `Executor::addwf`. -/
def Executor.addwf (c : Cpu) (f d : Nat) : Cpu × Nat :=
  let w := c.w
  let val := c.read_register f
  let result := (w + val) % 256
  let c1 := c.update_carry_flag (w + val > 0xFF)
  let c2 := c1.update_digit_carry_flag ((w &&& 0x0F) + (val &&& 0x0F) > 0x0F)
  let c3 := c2.update_zero_flag result
  (Executor.write_dest c3 f d result, 1)

/-- From `Executor::andwf`. -/
def Executor.andwf (c : Cpu) (f d : Nat) : Cpu × Nat :=
  let result := c.w &&& c.read_register f
  let c1 := c.update_zero_flag result
  (Executor.write_dest c1 f d result, 1)

/-- From `Executor::clrf`. -/
def Executor.clrf (c : Cpu) (f : Nat) : Cpu × Nat :=
  ((c.write_register f 0).set_status_bit 2, 1)

/-- From `Executor::clrw`. -/
def Executor.clrw (c : Cpu) : Cpu × Nat :=
  ((c.write_w 0).set_status_bit 2, 1)

/-- From `Executor::comf`; the `u8` complement is an 8-bit XOR. -/
def Executor.comf (c : Cpu) (f d : Nat) : Cpu × Nat :=
  let result := (c.read_register f) ^^^ 0xFF
  let c1 := c.update_zero_flag result
  (Executor.write_dest c1 f d result, 1)

/-- From `Executor::decf`; `wrapping_sub(1)` on a byte is `+ 255 mod 256`. -/
def Executor.decf (c : Cpu) (f d : Nat) : Cpu × Nat :=
  let result := (c.read_register f + 255) % 256
  let c1 := c.update_zero_flag result
  (Executor.write_dest c1 f d result, 1)

/-- From `Executor::decfsz`: skip (extra PC increment, 2 cycles) when the
decremented value is zero. -/
def Executor.decfsz (c : Cpu) (f d : Nat) : Cpu × Nat :=
  let result := (c.read_register f + 255) % 256
  let c1 := Executor.write_dest c f d result
  if result = 0 then (c1.increment_pc, 2) else (c1, 1)

/-- From `Executor::incf`. -/
def Executor.incf (c : Cpu) (f d : Nat) : Cpu × Nat :=
  let result := (c.read_register f + 1) % 256
  let c1 := c.update_zero_flag result
  (Executor.write_dest c1 f d result, 1)

/-- From `Executor::incfsz`. -/
def Executor.incfsz (c : Cpu) (f d : Nat) : Cpu × Nat :=
  let result := (c.read_register f + 1) % 256
  let c1 := Executor.write_dest c f d result
  if result = 0 then (c1.increment_pc, 2) else (c1, 1)

/-- From `Executor::iorwf`. -/
def Executor.iorwf (c : Cpu) (f d : Nat) : Cpu × Nat :=
  let result := c.w ||| c.read_register f
  let c1 := c.update_zero_flag result
  (Executor.write_dest c1 f d result, 1)

/-- From `Executor::movf`. -/
def Executor.movf (c : Cpu) (f d : Nat) : Cpu × Nat :=
  let val := c.read_register f
  let c1 := c.update_zero_flag val
  (Executor.write_dest c1 f d val, 1)

/-- From `Executor::movwf`. -/
def Executor.movwf (c : Cpu) (f : Nat) : Cpu × Nat :=
  (c.write_register f c.w, 1)

/-- From `Executor::rlf`: rotate left through carry. -/
def Executor.rlf (c : Cpu) (f d : Nat) : Cpu × Nat :=
  let val := c.read_register f
  let old_carry := if c.test_status_bit 0 then 1 else 0
  let result := ((val <<< 1) % 256) ||| old_carry
  let c1 := c.update_carry_flag (val &&& 0x80 ≠ 0)
  (Executor.write_dest c1 f d result, 1)

/-- From `Executor::rrf`: rotate right through carry. -/
def Executor.rrf (c : Cpu) (f d : Nat) : Cpu × Nat :=
  let val := c.read_register f
  let old_carry := if c.test_status_bit 0 then 0x80 else 0
  let result := (val >>> 1) ||| old_carry
  let c1 := c.update_carry_flag (val &&& 0x01 ≠ 0)
  (Executor.write_dest c1 f d result, 1)

/-- From `Executor::subwf`: C set iff no borrow, DC iff no low-nibble borrow;
`wrapping_sub` on bytes is `+ 256 - w mod 256`. -/
def Executor.subwf (c : Cpu) (f d : Nat) : Cpu × Nat :=
  let w := c.w
  let val := c.read_register f
  let result := (val + 256 - w) % 256
  let c1 := c.update_carry_flag (val ≥ w)
  let c2 := c1.update_digit_carry_flag ((val &&& 0x0F) ≥ (w &&& 0x0F))
  let c3 := c2.update_zero_flag result
  (Executor.write_dest c3 f d result, 1)

/-- From `Executor::swapf`. -/
def Executor.swapf (c : Cpu) (f d : Nat) : Cpu × Nat :=
  let val := c.read_register f
  let result := ((val <<< 4) % 256) ||| (val >>> 4)
  (Executor.write_dest c f d result, 1)

/-- From `Executor::xorwf`. -/
def Executor.xorwf (c : Cpu) (f d : Nat) : Cpu × Nat :=
  let result := c.w ^^^ c.read_register f
  let c1 := c.update_zero_flag result
  (Executor.write_dest c1 f d result, 1)

/-- From `Executor::bcf`. -/
def Executor.bcf (c : Cpu) (f b : Nat) : Cpu × Nat :=
  let val := c.read_register f
  (c.write_register f (val &&& (0xFF ^^^ (1 <<< b))), 1)

/-- From `Executor::bsf`. -/
def Executor.bsf (c : Cpu) (f b : Nat) : Cpu × Nat :=
  let val := c.read_register f
  (c.write_register f (val ||| (1 <<< b)), 1)

/-- From `Executor::btfsc`. -/
def Executor.btfsc (c : Cpu) (f b : Nat) : Cpu × Nat :=
  if c.read_register f &&& (1 <<< b) = 0 then (c.increment_pc, 2) else (c, 1)

/-- From `Executor::btfss`. -/
def Executor.btfss (c : Cpu) (f b : Nat) : Cpu × Nat :=
  if c.read_register f &&& (1 <<< b) ≠ 0 then (c.increment_pc, 2) else (c, 1)

/-- From `Executor::addlw`. -/
def Executor.addlw (c : Cpu) (k : Nat) : Cpu × Nat :=
  let w := c.w
  let result := (w + k) % 256
  let c1 := c.update_carry_flag (w + k > 0xFF)
  let c2 := c1.update_digit_carry_flag ((w &&& 0x0F) + (k &&& 0x0F) > 0x0F)
  let c3 := c2.update_zero_flag result
  (c3.write_w result, 1)

/-- From `Executor::andlw`. -/
def Executor.andlw (c : Cpu) (k : Nat) : Cpu × Nat :=
  let result := c.w &&& k
  ((c.update_zero_flag result).write_w result, 1)

/-- From `Executor::call`: push PC, then `PC = ((PCLATH & 0x18) << 8) | k`. -/
def Executor.call (c : Cpu) (k : Nat) : Cpu × Nat :=
  let c1 := c.push_pc
  let pclath := c1.read_register 0x0A
  (c1.set_pc (((pclath &&& 0x18) <<< 8) ||| k), 2)

/-- From `Executor::clrwdt`: clear the WDT and set TO and PD. -/
def Executor.clrwdt (c : Cpu) : Cpu × Nat :=
  let c1 := { c with wdt := c.wdt.clear }
  (c1.write_register 0x03 ((c1.read_register 0x03) ||| 0x18), 1)

/-- From `Executor::goto`. -/
def Executor.goto_op (c : Cpu) (k : Nat) : Cpu × Nat :=
  let pclath := c.read_register 0x0A
  (c.set_pc (((pclath &&& 0x18) <<< 8) ||| k), 2)

/-- From `Executor::iorlw`. -/
def Executor.iorlw (c : Cpu) (k : Nat) : Cpu × Nat :=
  let result := c.w ||| k
  ((c.update_zero_flag result).write_w result, 1)

/-- From `Executor::movlw`. -/
def Executor.movlw (c : Cpu) (k : Nat) : Cpu × Nat :=
  (c.write_w k, 1)

/-- From `Executor::retfie`: pop PC, set GIE, exit the ISR latch. -/
def Executor.retfie (c : Cpu) : Cpu × Nat :=
  let (addr, c1) := c.pop_pc
  let c2 := c1.set_pc addr
  let intcon := c2.read_register 0x0B
  let c3 := c2.write_register 0x0B (intcon ||| 0x80)
  (({ c3 with interrupts := c3.interrupts.exit_isr }), 2)

/-- From `Executor::retlw`. -/
def Executor.retlw (c : Cpu) (k : Nat) : Cpu × Nat :=
  let c1 := c.write_w k
  let (addr, c2) := c1.pop_pc
  (c2.set_pc addr, 2)

/-- From `Executor::ret`. -/
def Executor.ret (c : Cpu) : Cpu × Nat :=
  let (addr, c1) := c.pop_pc
  (c1.set_pc addr, 2)

/-- From `Executor::sleep`. -/
def Executor.sleep_op (c : Cpu) : Cpu × Nat :=
  (c.enter_sleep, 1)

/-- From `Executor::sublw`. -/
def Executor.sublw (c : Cpu) (k : Nat) : Cpu × Nat :=
  let w := c.w
  let result := (k + 256 - w) % 256
  let c1 := c.update_carry_flag (k ≥ w)
  let c2 := c1.update_digit_carry_flag ((k &&& 0x0F) ≥ (w &&& 0x0F))
  let c3 := c2.update_zero_flag result
  (c3.write_w result, 1)

/-- From `Executor::xorlw`. -/
def Executor.xorlw (c : Cpu) (k : Nat) : Cpu × Nat :=
  let result := c.w ^^^ k
  ((c.update_zero_flag result).write_w result, 1)

/-- From `Executor::execute`: dispatch on the instruction variant; the
returned Nat is the cycle count. -/
def Executor.execute (c : Cpu) : Instruction → Cpu × Nat
  | Instruction.ADDWF f d => Executor.addwf c f d
  | Instruction.ANDWF f d => Executor.andwf c f d
  | Instruction.CLRF f => Executor.clrf c f
  | Instruction.CLRW => Executor.clrw c
  | Instruction.COMF f d => Executor.comf c f d
  | Instruction.DECF f d => Executor.decf c f d
  | Instruction.DECFSZ f d => Executor.decfsz c f d
  | Instruction.INCF f d => Executor.incf c f d
  | Instruction.INCFSZ f d => Executor.incfsz c f d
  | Instruction.IORWF f d => Executor.iorwf c f d
  | Instruction.MOVF f d => Executor.movf c f d
  | Instruction.MOVWF f => Executor.movwf c f
  | Instruction.NOP => (c, 1)
  | Instruction.RLF f d => Executor.rlf c f d
  | Instruction.RRF f d => Executor.rrf c f d
  | Instruction.SUBWF f d => Executor.subwf c f d
  | Instruction.SWAPF f d => Executor.swapf c f d
  | Instruction.XORWF f d => Executor.xorwf c f d
  | Instruction.BCF f b => Executor.bcf c f b
  | Instruction.BSF f b => Executor.bsf c f b
  | Instruction.BTFSC f b => Executor.btfsc c f b
  | Instruction.BTFSS f b => Executor.btfss c f b
  | Instruction.ADDLW k => Executor.addlw c k
  | Instruction.ANDLW k => Executor.andlw c k
  | Instruction.CALL k => Executor.call c k
  | Instruction.CLRWDT => Executor.clrwdt c
  | Instruction.GOTO k => Executor.goto_op c k
  | Instruction.IORLW k => Executor.iorlw c k
  | Instruction.MOVLW k => Executor.movlw c k
  | Instruction.RETFIE => Executor.retfie c
  | Instruction.RETLW k => Executor.retlw c k
  | Instruction.RETURN => Executor.ret c
  | Instruction.SLEEP => Executor.sleep_op c
  | Instruction.SUBLW k => Executor.sublw c k
  | Instruction.XORLW k => Executor.xorlw c k

/-- Simulator lifecycle state, from `simulator.rs` (`enum SimulatorState`). -/
inductive SimulatorState where
  | Running
  | Paused
  | Halted
  | Error
deriving DecidableEq

/-- Execution statistics, from `simulator.rs` (`struct SimulatorStats`). -/
structure SimulatorStats where
  instructions_executed : Nat
  cycles_elapsed : Nat
deriving DecidableEq

/-- The outer simulator, from `simulator.rs` (`struct Simulator`). -/
structure Simulator where
  cpu : Cpu
  state : SimulatorState
  stats : SimulatorStats
  breakpoints : List Nat
deriving DecidableEq

/-- From `Simulator::new`. -/
def Simulator.new : Simulator :=
  { cpu := Cpu.new, state := SimulatorState.Paused,
    stats := { instructions_executed := 0, cycles_elapsed := 0 },
    breakpoints := [] }

/-- From `Simulator::reset`. -/
def Simulator.reset (s : Simulator) : Simulator :=
  { s with cpu := s.cpu.reset, state := SimulatorState.Paused,
           stats := { instructions_executed := 0, cycles_elapsed := 0 } }

/-- From `Simulator::load_program`. -/
def Simulator.load_program (s : Simulator) (program : List Nat) : Simulator :=
  { s with cpu := { s.cpu with memory := s.cpu.memory.load_program program } }

/-- One iteration of the per-cycle peripheral loop in `Simulator::step`
(lines 118-141), iterated `cycles` times.  The Bool result is true when a
WDT timeout during normal operation reset the CPU and ended the step
early. -/
def Simulator.tick_loop (c : Cpu) : Nat → Cpu × Bool
  | 0 => (c, false)
  | n + 1 =>
    let tt := c.timers.tick
    let c1 := { c with timers := tt.1 }
    let wt := c1.wdt.tick
    let c2 := { c1 with wdt := wt.1 }
    if wt.2 && !c2.sleeping then
      (c2.reset, true)
    else
      let c3 :=
        if tt.2.1 then
          c2.write_register 0x0B ((c2.read_register 0x0B) ||| 0x04)
        else c2
      let c4 :=
        if tt.2.2 then
          c3.write_register 0x0C ((c3.read_register 0x0C) ||| 0x01)
        else c3
      Simulator.tick_loop c4 n

/-- The non-sleeping part of `Simulator::step` (lines 98-155): interrupt
check, fetch, decode, PC increment, execute, peripheral ticks, cycle
accounting.  A decode failure returns the error with no further state
change. -/
def Simulator.step_exec (s : Simulator) : Simulator × Except String Nat :=
  let ch := s.cpu.check_and_handle_interrupts
  let c1 := ch.1
  let pc := c1.pc
  let word := c1.fetch_instruction
  match InstructionDecoder.decode word with
  | Except.error e =>
    ({ s with cpu := c1 },
     Except.error ("Decode error at PC " ++ toString pc ++ ": " ++ e))
  | Except.ok instruction =>
    let c2 := c1.increment_pc
    let ex := Executor.execute c2 instruction
    let tl := Simulator.tick_loop ex.1 ex.2
    if tl.2 then ({ s with cpu := tl.1 }, Except.ok ex.2)
    else
      let total := if ch.2 then ex.2 + 2 else ex.2
      ({ s with cpu := tl.1.add_cycles total,
                stats := { instructions_executed := s.stats.instructions_executed + 1,
                           cycles_elapsed := s.stats.cycles_elapsed + total } },
       Except.ok total)

/-- From `Simulator::step`: the halted guard and the sleep branch (WDT-only
tick, wake on timeout or pending interrupt), falling through to
`Simulator.step_exec` for normal execution. -/
def Simulator.step (s : Simulator) : Simulator × Except String Nat :=
  if s.state = SimulatorState.Halted then
    (s, Except.error "Simulator is halted")
  else if s.cpu.sleeping then
    let wt := s.cpu.wdt.tick
    let c1 := { s.cpu with wdt := wt.1 }
    if wt.2 then
      ({ s with cpu := c1.wake_up false }, Except.ok 1)
    else
      let intcon := c1.read_register 0x0B
      let pie1 := c1.read_register 0x8C
      let pir1 := c1.read_register 0x0C
      let sv := c1.interrupts.check_interrupts intcon pie1 pir1
      if sv.1 then
        Simulator.step_exec { s with cpu := c1.wake_up true }
      else
        ({ s with cpu := c1.add_cycles 1 }, Except.ok 1)
  else
    Simulator.step_exec s

deriving instance DecidableEq for Except

/-- Intel HEX record types, from `hexloader.rs` (`enum RecordType`). -/
inductive RecordType where
  | Data
  | EndOfFile
  | ExtendedSegmentAddress
  | StartSegmentAddress
  | ExtendedLinearAddress
  | StartLinearAddress
deriving DecidableEq

/-- From `RecordType::from_u8`: only type bytes 0x00-0x05 are recognised. -/
def RecordType.from_u8 (value : Nat) : Option RecordType :=
  if value = 0x00 then some RecordType.Data
  else if value = 0x01 then some RecordType.EndOfFile
  else if value = 0x02 then some RecordType.ExtendedSegmentAddress
  else if value = 0x03 then some RecordType.StartSegmentAddress
  else if value = 0x04 then some RecordType.ExtendedLinearAddress
  else if value = 0x05 then some RecordType.StartLinearAddress
  else none

/-- A parsed HEX record, from `hexloader.rs` (`struct HexRecord`). -/
structure HexRecord where
  byte_count : Nat
  address : Nat
  record_type : RecordType
  data : List Nat
  checksum : Nat
deriving DecidableEq

/-- From `HexRecord::calculate_checksum`: two's complement of the wrapping
byte sum. -/
def HexRecord.calculate_checksum (bytes : List Nat) : Nat :=
  (256 - bytes.foldl (fun acc b => (acc + b) % 256) 0) % 256

/-- Value of one hexadecimal digit, from the per-pair
`u8::from_str_radix(<two chars>, 16)` calls in `HexRecord::parse`. -/
def hexDigitVal (c : Char) : Option Nat :=
  if '0' ≤ c ∧ c ≤ '9' then some (c.toNat - 48)
  else if 'a' ≤ c ∧ c ≤ 'f' then some (c.toNat - 97 + 10)
  else if 'A' ≤ c ∧ c ≤ 'F' then some (c.toNat - 65 + 10)
  else none

/-- Parse consecutive two-character hex byte pairs, from the byte loop of
`HexRecord::parse`. -/
def parseHexBytes : List Char → Except String (List Nat)
  | [] => Except.ok []
  | [_] => Except.error "Invalid hex byte"
  | c1 :: c2 :: rest =>
    match hexDigitVal c1, hexDigitVal c2 with
    | some hi, some lo =>
      match parseHexBytes rest with
      | Except.ok bs => Except.ok ((hi * 16 + lo) :: bs)
      | Except.error e => Except.error e
    | _, _ => Except.error "Invalid hex byte"

/-- The byte-level part of `HexRecord::parse`: length, record type, byte
count and checksum validation over the decoded byte list. -/
def HexRecord.parse_from_bytes (bytes : List Nat) : Except String HexRecord :=
  if bytes.length < 5 then Except.error "HEX line too short"
  else
    let byte_count := bytes.getD 0 0
    let address := ((bytes.getD 1 0) <<< 8) ||| (bytes.getD 2 0)
    match RecordType.from_u8 (bytes.getD 3 0) with
    | none => Except.error "Invalid record type"
    | some record_type =>
      let data_end := 4 + byte_count
      if bytes.length ≠ data_end + 1 then Except.error "Byte count mismatch"
      else
        let data := (bytes.drop 4).take byte_count
        let checksum := bytes.getD data_end 0
        if HexRecord.calculate_checksum (bytes.take data_end) ≠ checksum then
          Except.error "Checksum mismatch"
        else
          Except.ok { byte_count := byte_count, address := address,
                      record_type := record_type, data := data,
                      checksum := checksum }

/-- Strip leading whitespace, from the behaviour of `str::trim`. -/
def trimLeftChars : List Char → List Char
  | [] => []
  | c :: rest => if c.isWhitespace then trimLeftChars rest else c :: rest

/-- Strip whitespace from both ends, embedding `str::trim` on the ASCII
lines the loader handles. -/
def trimChars (cs : List Char) : List Char :=
  (trimLeftChars ((trimLeftChars cs.reverse)).reverse)

/-- From `HexRecord::parse`: trim, require a leading colon and even length,
decode the hex byte pairs, then validate. -/
def HexRecord.parse (line : String) : Except String HexRecord :=
  match trimChars line.data with
  | ':' :: cs =>
    if cs.length % 2 ≠ 0 then
      Except.error "HEX line must have even number of characters"
    else
      match parseHexBytes cs with
      | Except.error e => Except.error e
      | Except.ok bytes => HexRecord.parse_from_bytes bytes
  | _ => Except.error "HEX line must start with a colon" 

/-- A loaded HEX program, from `hexloader.rs` (`struct HexProgram`). -/
structure HexProgram where
  program : List Nat
  eeprom : List Nat
  config : Option Nat
  start_address : Nat
deriving DecidableEq

/-- Accumulator of `HexLoader::load_from_lines`: the local mutable state of
the line loop. -/
structure LoaderState where
  program_bytes : List Nat
  max_address : Nat
  extended_address : Nat
  eeprom_data : List Nat
  config_word : Option Nat
deriving DecidableEq

/-- Initial loop state of `HexLoader::load_from_lines`. -/
def LoaderState.init : LoaderState :=
  { program_bytes := [], max_address := 0, extended_address := 0,
    eeprom_data := [], config_word := none }

/-- From the `resize` calls in `HexLoader::load_from_lines`: grow a buffer
to length `n` filling with `fill`. -/
def resize_fill (l : List Nat) (n fill : Nat) : List Nat :=
  if n > l.length then l ++ List.replicate (n - l.length) fill else l

/-- From the byte-copy loops in `HexLoader::load_from_lines`. -/
def copy_bytes (l : List Nat) (start : Nat) : List Nat → List Nat
  | [] => l
  | b :: rest => copy_bytes (l.set start b) (start + 1) rest

/-- The per-record body of the line loop in `HexLoader::load_from_lines`:
Data records go to EEPROM, the configuration word or program bytes; 02 and
04 records update the extended address; every other type falls through and
contributes nothing (EndOfFile is intercepted by the caller). -/
def HexLoader.process_record (st : LoaderState) (r : HexRecord) : LoaderState :=
  match r.record_type with
  | RecordType.Data =>
    let abs_address := st.extended_address + r.address
    if 0x2100 ≤ abs_address ∧ abs_address < 0x2180 then
      let eeprom_addr := abs_address - 0x2100
      let ee := resize_fill st.eeprom_data (eeprom_addr + r.data.length) 0xFF
      { st with eeprom_data := copy_bytes ee eeprom_addr r.data }
    else if abs_address = 0x2007 then
      if r.data.length ≥ 2 then
        { st with config_word := some ((r.data.getD 0 0) ||| ((r.data.getD 1 0) <<< 8)) }
      else st
    else
      let pb := resize_fill st.program_bytes (abs_address + r.data.length) 0xFF
      { st with program_bytes := copy_bytes pb abs_address r.data,
                max_address := max st.max_address (abs_address + r.data.length) }
  | RecordType.ExtendedLinearAddress =>
    if r.data.length ≥ 2 then
      { st with extended_address := (((r.data.getD 0 0) <<< 8) ||| (r.data.getD 1 0)) <<< 16 }
    else st
  | RecordType.ExtendedSegmentAddress =>
    if r.data.length ≥ 2 then
      { st with extended_address := (((r.data.getD 0 0) <<< 8) ||| (r.data.getD 1 0)) <<< 4 }
    else st
  | _ => st

/-- The line loop of `HexLoader::load_from_lines`: skip blank and comment
lines, parse each record (errors carry the 1-based line number), stop at
EndOfFile. -/
def HexLoader.load_lines : LoaderState → List String → Nat → Except String LoaderState
  | st, [], _ => Except.ok st
  | st, line :: rest, line_num =>
    let l := trimChars line.data
    if l = [] ∨ l.headD ' ' = ';' then
      HexLoader.load_lines st rest (line_num + 1)
    else
      match HexRecord.parse (String.mk l) with
      | Except.error e =>
        Except.error ("Line " ++ toString (line_num + 1) ++ ": " ++ e)
      | Except.ok r =>
        match r.record_type with
        | RecordType.EndOfFile => Except.ok st
        | _ => HexLoader.load_lines (HexLoader.process_record st r) rest (line_num + 1)

/-- From the word-conversion loop of `HexLoader::load_from_lines`:
little-endian byte pairs masked to 14 bits; an odd trailing byte becomes a
word with a zero high byte. -/
def HexLoader.to_words : List Nat → List Nat
  | [] => []
  | [b] => [b]
  | lo :: hi :: rest => ((lo ||| (hi <<< 8)) &&& 0x3FFF) :: HexLoader.to_words rest

/-- From `HexLoader::load_from_lines`. -/
def HexLoader.load_from_lines (lines : List String) : Except String HexProgram :=
  match HexLoader.load_lines LoaderState.init lines 0 with
  | Except.error e => Except.error e
  | Except.ok st =>
    Except.ok { program := HexLoader.to_words st.program_bytes,
                eeprom := st.eeprom_data, config := st.config_word,
                start_address := 0 }

example :
    HexLoader.load_from_lines
      [":020000040000FA", ":02000000553079", ":020002002000DC", ":00000001FF"]
      = Except.ok { program := [0x3055, 0x0020], eeprom := [], config := none,
                    start_address := 0 } := by decide

/-- A value already below `2 ^ 13` is unchanged by the 13-bit PC mask. -/
theorem and_mask13_of_lt (a : Nat) (h : a < 0x2000) : a &&& 0x1FFF = a := by
  have h13 : (0x1FFF : Nat) = 2 ^ 13 - 1 := by norm_num
  have h2 : a < 2 ^ 13 := by norm_num at h ⊢; omega
  rw [h13, Nat.and_pow_two_sub_one_of_lt_two_pow h2]

/-- The 13-bit PC mask always lands below `2 ^ 13`. -/
theorem and_mask13_lt (a : Nat) : a &&& 0x1FFF < 0x2000 := by
  have : a &&& 0x1FFF ≤ 0x1FFF := Nat.and_le_right
  omega

/-- Merging a byte into a value shifted left by 8 is plain addition. -/
theorem shiftLeft8_lor_eq_add (p v : Nat) (hv : v < 256) :
    (p <<< 8) ||| v = 256 * p + v := by
  have hsh : p <<< 8 = 2 ^ 8 * p := by
    rw [Nat.shiftLeft_eq]; ring
  have hv8 : v < 2 ^ 8 := by norm_num at hv ⊢; omega
  rw [hsh, ← Nat.mul_add_lt_is_or hv8 p]

/-- C1 counterexample: from the reset state, writing PCLATH := 0x20 and then
PCL := 0x00 through the CPU write dispatcher drives PC to 0x2000, which is
outside [0, 0x2000).  The claimed invariant fails on reachable states. -/
theorem c1_counterexample :
    ((Cpu.new.reset.write_register 0x0A 0x20).write_register 0x02 0x00).pc = 0x2000 ∧
    ¬ ((Cpu.new.reset.write_register 0x0A 0x20).write_register 0x02 0x00).pc < 0x2000 := by
  decide

/-- C1 (amended): `set_pc` and `increment_pc` always leave PC inside
[0, 0x2000); a PCL write through the dispatcher instead sets
`PC = (PCLATH <<< 8) ||| value` with no masking of PCLATH, and its result
lies inside [0, 0x2000) exactly when the stored PCLATH byte is below 0x20. -/
theorem c1_pc_range_amended (c : Cpu) (a v : Nat) (hv : v < 256) :
    ((c.set_pc a).pc < 0x2000) ∧
    (c.increment_pc.pc < 0x2000) ∧
    ((c.write_register 0x02 v).pc = ((c.memory.read_data 0x0A) <<< 8) ||| v) ∧
    ((c.write_register 0x02 v).pc < 0x2000 ↔ c.memory.read_data 0x0A < 0x20) := by
  have hw : (c.write_register 0x02 v).pc = ((c.memory.read_data 0x0A) <<< 8) ||| v := by
    simp [Cpu.write_register]
  refine ⟨and_mask13_lt a, and_mask13_lt (c.pc + 1), hw, ?_⟩
  rw [hw, shiftLeft8_lor_eq_add _ v hv]
  omega

/-- C1 witness: the amended statement evaluated at the fresh CPU with
value 0. -/
theorem c1_pc_range_amended_witness :
    (0 : Nat) < 256 ∧
    (((Cpu.new.set_pc 0x3FFF).pc < 0x2000) ∧
     (Cpu.new.increment_pc.pc < 0x2000) ∧
     ((Cpu.new.write_register 0x02 0).pc = ((Cpu.new.memory.read_data 0x0A) <<< 8) ||| 0) ∧
     ((Cpu.new.write_register 0x02 0).pc < 0x2000 ↔ Cpu.new.memory.read_data 0x0A < 0x20)) :=
  ⟨by decide, c1_pc_range_amended Cpu.new 0x3FFF 0 (by decide)⟩

/-- C4: writing OPTION_REG through the CPU write dispatcher reconfigures
Timer0 but never touches the WDT: the `wdt` component is unchanged for
every state and value, so after writing PSA=1, PS=111 the WDT still has
prescaler rate 1 and timeout 18000, although `Wdt::configure_prescaler`
would have reconfigured it. -/
theorem c4_option_write_skips_wdt :
    (∀ (c : Cpu) (v : Nat), (c.write_register 0x81 v).wdt = c.wdt) ∧
    ((Cpu.new.reset.write_register 0x81 0x0F).timers.timer0.prescaler_rate = 256) ∧
    ((Cpu.new.reset.write_register 0x81 0x0F).timers.timer0.prescaler_assigned_to_wdt = true) ∧
    ((Cpu.new.reset.write_register 0x81 0x0F).wdt.prescaler_rate = 1) ∧
    ((Cpu.new.reset.write_register 0x81 0x0F).wdt.timeout_period = 18000) ∧
    ((Wdt.new.configure_prescaler 0x0F).prescaler_rate = 128) ∧
    ((Wdt.new.configure_prescaler 0x0F).timeout_period = 2304000) := by
  refine ⟨?_, by decide, by decide, by decide, by decide, by decide, by decide⟩
  intro c v
  simp [Cpu.write_register]

/-- C6: writing TMR0 (address 0x01) through the CPU write dispatcher leaves
the whole timer block untouched — in particular the Timer0 prescaler
accumulator is NOT cleared — although `Timer0::write_counter` (which the
dispatcher never calls) would have cleared it. -/
theorem c6_tmr0_write_skips_timer0 :
    (∀ (c : Cpu) (v : Nat), (c.write_register 0x01 v).timers = c.timers) ∧
    (({ Cpu.new with
          timers := { TimerController.new with
                        timer0 := { Timer0.new with prescaler := 5 } } }.write_register
        0x01 0x00).timers.timer0.prescaler = 5) ∧
    (({ Timer0.new with prescaler := 5 }.write_counter 0x00).prescaler = 0) := by
  refine ⟨?_, by decide, by decide⟩
  intro c v
  simp [Cpu.write_register]

/-- C7 counterexample: a Bank 1 write to the bank-specific address 0x20
lands in physical index `(0x20 | 0x80) & 0x7F = 0x20`, the very cell a
Bank 0 access to 0x20 resolves to — the two are not distinct. -/
theorem c7_counterexample :
    ((Memory.new.write_data_banked 0x20 0xAB 1).read_data_banked 0x20 0 = 0xAB) ∧
    (((0x20 ||| 0x80) &&& 0x7F : Nat) = 0x20) := by
  decide

/-- C7 (amended): for a bank-specific address `a` (0x0C ≤ a < 0x80, the
range a 7-bit file address can reach), a Bank 1 access resolves to
`(a | 0x80) & 0x7F`, but that index equals `a` itself, so Bank 1 reads and
writes hit exactly the cell Bank 0 uses: the fold mirrors the banks
instead of separating them. -/
theorem c7_banked_mirror_amended (m : Memory) (a v : Nat)
    (h1 : 0x0C ≤ a) (h2 : a < 0x80) :
    ((a ||| 0x80) &&& 0x7F = a) ∧
    (m.read_data_banked a 1 = m.read_data_banked a 0) ∧
    (m.write_data_banked a v 1 = m.write_data_banked a v 0) := by
  have hidx : (a ||| 0x80) &&& 0x7F = a := by
    have h7 : a < 2 ^ 7 := by norm_num at h2 ⊢; omega
    have hor : (0x80 : Nat) ||| a = 0x80 + a := by
      have := Nat.mul_add_lt_is_or h7 1
      norm_num at this
      omega
    have hmask : (0x7F : Nat) = 2 ^ 7 - 1 := by norm_num
    rw [Nat.lor_comm, hor, hmask, Nat.and_pow_two_sub_one_eq_mod]
    norm_num
    omega
  have hcond : ¬ (a < 0x0C ∨ (1 : Nat) = 0) := by
    push_neg
    exact ⟨by omega, by omega⟩
  refine ⟨hidx, ?_, ?_⟩
  · simp only [Memory.read_data_banked, hcond, if_neg, if_false, hidx]
    simp
  · simp only [Memory.write_data_banked, hcond, if_neg, if_false, hidx]
    simp

/-- C7 witness: the amended statement at address 0x20 on fresh memory. -/
theorem c7_banked_mirror_amended_witness :
    ((0x0C : Nat) ≤ 0x20 ∧ (0x20 : Nat) < 0x80) ∧
    (((0x20 ||| 0x80) &&& 0x7F : Nat) = 0x20) ∧
    (Memory.new.read_data_banked 0x20 1 = Memory.new.read_data_banked 0x20 0) ∧
    (Memory.new.write_data_banked 0x20 0xCD 1 = Memory.new.write_data_banked 0x20 0xCD 0) :=
  ⟨⟨by decide, by decide⟩,
   c7_banked_mirror_amended Memory.new 0x20 0xCD (by decide) (by decide)⟩

/-- A single-bit mask test is nonzero exactly when the bit is set. -/
theorem and_bit_ne_zero_iff (x n k : Nat) (hk : 2 ^ n = k) :
    (x &&& k ≠ 0 ↔ x.testBit n = true) := by
  subst hk
  rw [Nat.and_two_pow]
  cases h : x.testBit n <;> simp [Nat.pos_iff_ne_zero, Nat.pos_pow_of_pos]

/-- Spec-side formulation of the interrupt condition, following the words of
the specification: GIE (INTCON bit 7) and one of T0IE∧T0IF, INTE∧INTF,
GPIE∧GPIF over INTCON, or PEIE (bit 6) together with one of TMR1IE∧TMR1IF,
CMIE∧CMIF, ADIE∧ADIF, EEIE∧EEIF over (PIE1, PIR1). -/
def interrupt_spec (intcon pie1 pir1 : Nat) : Prop :=
  intcon.testBit 7 = true ∧
    ((intcon.testBit 5 = true ∧ intcon.testBit 2 = true) ∨
     (intcon.testBit 4 = true ∧ intcon.testBit 1 = true) ∨
     (intcon.testBit 3 = true ∧ intcon.testBit 0 = true) ∨
     (intcon.testBit 6 = true ∧
       ((pie1.testBit 0 = true ∧ pir1.testBit 0 = true) ∨
        (pie1.testBit 3 = true ∧ pir1.testBit 3 = true) ∨
        (pie1.testBit 6 = true ∧ pir1.testBit 6 = true) ∨
        (pie1.testBit 7 = true ∧ pir1.testBit 7 = true))))

/-- The if-chain of the interrupt check, flattened to the equivalent
disjunction of enable-and-flag mask tests. -/
theorem check_interrupts_fst_mask (ic : InterruptController) (i p r : Nat) :
    ((ic.check_interrupts i p r).1 = true) ↔
      (i &&& 0x80 ≠ 0 ∧
        ((i &&& 0x20 ≠ 0 ∧ i &&& 0x04 ≠ 0) ∨
         (i &&& 0x10 ≠ 0 ∧ i &&& 0x02 ≠ 0) ∨
         (i &&& 0x08 ≠ 0 ∧ i &&& 0x01 ≠ 0) ∨
         (i &&& 0x40 ≠ 0 ∧
           ((p &&& 0x01 ≠ 0 ∧ r &&& 0x01 ≠ 0) ∨
            (p &&& 0x08 ≠ 0 ∧ r &&& 0x08 ≠ 0) ∨
            (p &&& 0x40 ≠ 0 ∧ r &&& 0x40 ≠ 0) ∨
            (p &&& 0x80 ≠ 0 ∧ r &&& 0x80 ≠ 0))))) := by
  unfold InterruptController.check_interrupts
  by_cases h1 : i &&& 0x80 = 0
  · rw [if_pos h1]
    exact iff_of_false (by simp) (fun hm => hm.1 h1)
  rw [if_neg h1]
  by_cases h2 : i &&& 0x20 ≠ 0 ∧ i &&& 0x04 ≠ 0
  · rw [if_pos h2]
    exact iff_of_true rfl ⟨h1, Or.inl h2⟩
  rw [if_neg h2]
  by_cases h3 : i &&& 0x10 ≠ 0 ∧ i &&& 0x02 ≠ 0
  · rw [if_pos h3]
    exact iff_of_true rfl ⟨h1, Or.inr (Or.inl h3)⟩
  rw [if_neg h3]
  by_cases h4 : i &&& 0x08 ≠ 0 ∧ i &&& 0x01 ≠ 0
  · rw [if_pos h4]
    exact iff_of_true rfl ⟨h1, Or.inr (Or.inr (Or.inl h4))⟩
  rw [if_neg h4]
  by_cases h5 : i &&& 0x40 ≠ 0
  · rw [if_pos h5]
    by_cases h6 : p &&& 0x01 ≠ 0 ∧ r &&& 0x01 ≠ 0
    · rw [if_pos h6]
      exact iff_of_true rfl ⟨h1, Or.inr (Or.inr (Or.inr ⟨h5, Or.inl h6⟩))⟩
    rw [if_neg h6]
    by_cases h7 : p &&& 0x08 ≠ 0 ∧ r &&& 0x08 ≠ 0
    · rw [if_pos h7]
      exact iff_of_true rfl ⟨h1, Or.inr (Or.inr (Or.inr ⟨h5, Or.inr (Or.inl h7)⟩))⟩
    rw [if_neg h7]
    by_cases h8 : p &&& 0x40 ≠ 0 ∧ r &&& 0x40 ≠ 0
    · rw [if_pos h8]
      exact iff_of_true rfl ⟨h1, Or.inr (Or.inr (Or.inr ⟨h5, Or.inr (Or.inr (Or.inl h8))⟩))⟩
    rw [if_neg h8]
    by_cases h9 : p &&& 0x80 ≠ 0 ∧ r &&& 0x80 ≠ 0
    · rw [if_pos h9]
      exact iff_of_true rfl ⟨h1, Or.inr (Or.inr (Or.inr ⟨h5, Or.inr (Or.inr (Or.inr h9))⟩))⟩
    rw [if_neg h9]
    refine iff_of_false (by simp) ?_
    rintro ⟨hg, hc | hc | hc | ⟨hp, hc | hc | hc | hc⟩⟩
    · exact h2 hc
    · exact h3 hc
    · exact h4 hc
    · exact h6 hc
    · exact h7 hc
    · exact h8 hc
    · exact h9 hc
  · rw [if_neg h5]
    refine iff_of_false (by simp) ?_
    rintro ⟨hg, hc | hc | hc | ⟨hp, hrest⟩⟩
    · exact h2 hc
    · exact h3 hc
    · exact h4 hc
    · exact h5 hp

/-- Whenever the interrupt check fires, the returned vector is the
controller's vector field. -/
theorem check_interrupts_snd_of_fst (ic : InterruptController) (i p r : Nat)
    (h : (ic.check_interrupts i p r).1 = true) :
    (ic.check_interrupts i p r).2 = ic.interrupt_vector := by
  revert h
  unfold InterruptController.check_interrupts
  split_ifs <;> simp

/-- C2: the pure interrupt check returns should_interrupt = true exactly
under the specified bit condition over (INTCON, PIE1, PIR1), and whenever
it fires, the returned vector is 0x0004. -/
theorem c2_check_interrupts_spec (ic : InterruptController) (i p r : Nat)
    (hv : ic.interrupt_vector = 4) :
    (((ic.check_interrupts i p r).1 = true) ↔ interrupt_spec i p r) ∧
    ((ic.check_interrupts i p r).1 = true → (ic.check_interrupts i p r).2 = 4) := by
  have b7 := and_bit_ne_zero_iff i 7 0x80 (by norm_num)
  have b6 := and_bit_ne_zero_iff i 6 0x40 (by norm_num)
  have b5 := and_bit_ne_zero_iff i 5 0x20 (by norm_num)
  have b4 := and_bit_ne_zero_iff i 4 0x10 (by norm_num)
  have b3 := and_bit_ne_zero_iff i 3 0x08 (by norm_num)
  have b2 := and_bit_ne_zero_iff i 2 0x04 (by norm_num)
  have b1 := and_bit_ne_zero_iff i 1 0x02 (by norm_num)
  have b0 := and_bit_ne_zero_iff i 0 0x01 (by norm_num)
  have q0 := and_bit_ne_zero_iff p 0 0x01 (by norm_num)
  have q3 := and_bit_ne_zero_iff p 3 0x08 (by norm_num)
  have q6 := and_bit_ne_zero_iff p 6 0x40 (by norm_num)
  have q7 := and_bit_ne_zero_iff p 7 0x80 (by norm_num)
  have s0 := and_bit_ne_zero_iff r 0 0x01 (by norm_num)
  have s3 := and_bit_ne_zero_iff r 3 0x08 (by norm_num)
  have s6 := and_bit_ne_zero_iff r 6 0x40 (by norm_num)
  have s7 := and_bit_ne_zero_iff r 7 0x80 (by norm_num)
  constructor
  · rw [check_interrupts_fst_mask ic i p r, b7, b5, b2, b4, b1, b3, b0, b6,
        q0, s0, q3, s3, q6, s6, q7, s7]
    unfold interrupt_spec
    exact Iff.rfl
  · intro htrue
    rw [check_interrupts_snd_of_fst ic i p r htrue, hv]

/-- C2 witness: the equivalence at INTCON = 0xA4 (GIE, T0IE, T0IF set) on a
fresh controller. -/
theorem c2_check_interrupts_spec_witness :
    InterruptController.new.interrupt_vector = 4 ∧
    ((((InterruptController.new.check_interrupts 0xA4 0 0).1 = true) ↔
        interrupt_spec 0xA4 0 0) ∧
     ((InterruptController.new.check_interrupts 0xA4 0 0).1 = true →
        (InterruptController.new.check_interrupts 0xA4 0 0).2 = 4)) :=
  ⟨by decide, c2_check_interrupts_spec InterruptController.new 0xA4 0 0 (by decide)⟩

/-- Closed form for ticking the WDT configured with PSA=1 and rate 1:2
(timeout period 36000) from a cleared state: each base tick advances the
prescaler, the counter advances every second tick, and within the first
36000 ticks no timeout ever fires. -/
theorem wdt_rate2_run_closed (k : Nat) (hk : k ≤ 36000) :
    Wdt.run { counter := 0, enabled := true, prescaler := 0, prescaler_rate := 2,
              prescaler_assigned := true, timeout_period := 36000 } k =
      ({ counter := k / 2, enabled := true, prescaler := k % 2,
         prescaler_rate := 2, prescaler_assigned := true,
         timeout_period := 36000 }, false) := by
  induction k with
  | zero => decide
  | succ k ih =>
    rw [Wdt.run, ih (Nat.le_of_succ_le hk)]
    rcases Nat.mod_two_eq_zero_or_one k with hpar | hpar
    · have hno : ¬ (k % 2 + 1 ≥ 2) := by omega
      have hto : ¬ (k / 2 ≥ 36000) := by omega
      simp only [Wdt.tick, hpar, Bool.not_true, Bool.false_eq_true, if_false,
                 if_neg hno, if_neg hto]
      have e1 : (k + 1) / 2 = k / 2 := by omega
      have e2 : (k + 1) % 2 = 1 := by omega
      simp [e1, e2]
      omega
    · have hyes : k % 2 + 1 ≥ 2 := by omega
      have hto : ¬ (k / 2 + 1 ≥ 36000) := by omega
      simp only [Wdt.tick, hpar, Bool.not_true, Bool.false_eq_true, if_false,
                 if_pos hyes, if_neg hto]
      have e1 : (k + 1) / 2 = k / 2 + 1 := by omega
      have e2 : (k + 1) % 2 = 0 := by omega
      simp [e1, e2]
      omega

/-- C5: with PSA=1 and PS=001 (prescaler 1:2, so N = 2) the WDT, started
from a cleared state, has NOT timed out after 18000 × 2 = 36000 base
ticks: every one of those calls returned false and the counter is only at
18000, half of the configured timeout period of 36000 — the prescaler
divides the tick rate while the timeout period is also multiplied, so the
real timeout needs 18000 × N² base ticks. -/
theorem c5_wdt_timeout_double_scaled :
    ((Wdt.new.configure_prescaler 0x09).prescaler_rate = 2) ∧
    ((Wdt.new.configure_prescaler 0x09).timeout_period = 36000) ∧
    (((Wdt.new.configure_prescaler 0x09).run 36000).2 = false) ∧
    (((Wdt.new.configure_prescaler 0x09).run 36000).1.counter = 18000) := by
  have hcfg : Wdt.new.configure_prescaler 0x09 =
      { counter := 0, enabled := true, prescaler := 0, prescaler_rate := 2,
        prescaler_assigned := true, timeout_period := 36000 } := by decide
  refine ⟨by decide, by decide, ?_, ?_⟩
  · rw [hcfg, wdt_rate2_run_closed 36000 (by omega)]
  · rw [hcfg, wdt_rate2_run_closed 36000 (by omega)]

/-- Pushing the PC on a non-full stack with an in-range PC appends it at
the stack pointer slot. -/
theorem push_pc_eq (c : Cpu) (hsp : c.memory.stack_pointer < 8)
    (hpc : c.pc < 0x2000) :
    c.push_pc = { c with memory := { c.memory with
        stack := c.memory.stack.set c.memory.stack_pointer c.pc,
        stack_pointer := c.memory.stack_pointer + 1 } } := by
  unfold Cpu.push_pc Memory.push_stack
  rw [and_mask13_of_lt c.pc hpc, if_neg (by omega)]

/-- Reading INTCON (0x0B) through the dispatcher is a plain data-memory
read of byte 0x0B in either bank. -/
theorem read_register_intcon_eq (c : Cpu) :
    c.read_register 0x0B = c.memory.data_memory.getD 0x0B 0 := by
  unfold Cpu.read_register Memory.read_data_banked
  norm_num

/-- Writing INTCON (0x0B) through the dispatcher is a plain data-memory
write of byte 0x0B in either bank. -/
theorem write_register_intcon_eq (c : Cpu) (v : Nat) :
    c.write_register 0x0B v =
      { c with memory := { c.memory with
          data_memory := c.memory.data_memory.set 0x0B v } } := by
  unfold Cpu.write_register Memory.write_data_banked
  norm_num

/-- C3: whenever an interrupt is serviced (pending source with the check
firing, not already in-ISR), the handler pushes the pre-service PC on the
return stack, rewrites INTCON to its old value AND 0x7F (clearing GIE,
bit 7, and only it — every flag bit survives), sets PC to 0x0004 and sets
the in-ISR latch; W, the cycle counter, the sleeping flag, GPIO, timers,
the WDT, program memory, EEPROM, and every data-memory byte other than
INTCON (in particular PIR1) are unchanged. -/
theorem c3_interrupt_service_frame (c : Cpu)
    (hpend : (c.interrupts.check_interrupts (c.read_register 0x0B)
        (c.read_register 0x8C) (c.read_register 0x0C)).1 = true)
    (hin : c.interrupts.in_isr = false)
    (hv : c.interrupts.interrupt_vector = 4)
    (hpc : c.pc < 0x2000)
    (hsp : c.memory.stack_pointer < 8) :
    (c.check_and_handle_interrupts).2 = true ∧
    (c.check_and_handle_interrupts).1 =
      { c with
        pc := 0x0004,
        memory := { c.memory with
          data_memory := c.memory.data_memory.set 0x0B
            ((c.memory.data_memory.getD 0x0B 0) &&& 0x7F),
          stack := c.memory.stack.set c.memory.stack_pointer c.pc,
          stack_pointer := c.memory.stack_pointer + 1 },
        interrupts := { gie_saved := true, interrupt_triggered := true,
                        interrupt_vector := c.interrupts.interrupt_vector } } := by
  have hv2 : (c.interrupts.check_interrupts (c.read_register 0x0B)
      (c.read_register 0x8C) (c.read_register 0x0C)).2 = 4 := by
    rw [check_interrupts_snd_of_fst _ _ _ _ hpend, hv]
  have hm4 : (4 : Nat) &&& 0x1FFF = 4 := by decide
  constructor
  · simp only [Cpu.check_and_handle_interrupts, hpend, hin, Bool.not_false,
               Bool.and_self, if_true]
  · simp only [Cpu.check_and_handle_interrupts, hpend, hin, Bool.not_false,
               Bool.and_self, if_true]
    rw [push_pc_eq c hsp hpc, read_register_intcon_eq, write_register_intcon_eq,
        hv2]
    simp only [Cpu.set_pc, hm4, InterruptController.enter_isr]

/-- Concrete CPU with GIE, T0IE and T0IF set in INTCON, used to witness the
interrupt-servicing frame theorem. -/
def c3_cpu : Cpu := Cpu.new.reset.write_register 0x0B 0xA4

/-- C3 witness: the servicing frame theorem evaluated on a reset CPU whose
INTCON holds 0xA4. -/
theorem c3_interrupt_service_frame_witness :
    ((c3_cpu.interrupts.check_interrupts (c3_cpu.read_register 0x0B)
        (c3_cpu.read_register 0x8C) (c3_cpu.read_register 0x0C)).1 = true ∧
     c3_cpu.interrupts.in_isr = false ∧
     c3_cpu.interrupts.interrupt_vector = 4 ∧
     c3_cpu.pc < 0x2000 ∧
     c3_cpu.memory.stack_pointer < 8) ∧
    ((c3_cpu.check_and_handle_interrupts).2 = true ∧
     (c3_cpu.check_and_handle_interrupts).1 =
       { c3_cpu with
         pc := 0x0004,
         memory := { c3_cpu.memory with
           data_memory := c3_cpu.memory.data_memory.set 0x0B
             ((c3_cpu.memory.data_memory.getD 0x0B 0) &&& 0x7F),
           stack := c3_cpu.memory.stack.set c3_cpu.memory.stack_pointer c3_cpu.pc,
           stack_pointer := c3_cpu.memory.stack_pointer + 1 },
         interrupts := { gie_saved := true, interrupt_triggered := true,
                         interrupt_vector := c3_cpu.interrupts.interrupt_vector } }) :=
  ⟨⟨by decide, by decide, by decide, by decide, by decide⟩,
   c3_interrupt_service_frame c3_cpu (by decide) (by decide) (by decide)
     (by decide) (by decide)⟩

/-- Simulator state used to refute the decode-error frame claim: INTCON
pre-set to 0xA4 (GIE, T0IE, T0IF), PC at 0x006, and the undecodable word
0x3FFF planted at the interrupt vector 0x0004. -/
def c8_sim : Simulator :=
  let s0 := Simulator.new.reset
  let cw := s0.cpu.write_register 0x0B 0xA4
  { s0 with cpu := { cw with pc := 6, memory := cw.memory.write_program 4 0x3FFF } }

/-- C8 counterexample: the step fails with a decode error, yet the stack,
INTCON (GIE) and the in-ISR latch have all changed from the start of the
step, because the interrupt was serviced before the failing fetch. -/
theorem c8_counterexample :
    (((c8_sim.step).2).isOk = false) ∧
    (c8_sim.cpu.memory.stack_pointer = 0 ∧
     (c8_sim.step).1.cpu.memory.stack_pointer = 1) ∧
    ((c8_sim.step).1.cpu.memory.stack.getD 0 0 = 6) ∧
    (c8_sim.cpu.memory.data_memory.getD 0x0B 0 = 0xA4 ∧
     (c8_sim.step).1.cpu.memory.data_memory.getD 0x0B 0 = 0x24) ∧
    (c8_sim.cpu.interrupts.interrupt_triggered = false ∧
     (c8_sim.step).1.cpu.interrupts.interrupt_triggered = true) := by
  decide

/-- When the interrupt check does not service, the CPU comes back
unchanged. -/
theorem check_and_handle_not_serviced (c : Cpu)
    (h : (c.check_and_handle_interrupts).2 = false) :
    (c.check_and_handle_interrupts).1 = c := by
  simp only [Cpu.check_and_handle_interrupts] at h ⊢
  by_cases hc : ((c.interrupts.check_interrupts (c.read_register 0x0B)
      (c.read_register 0x8C) (c.read_register 0x0C)).1 &&
      !c.interrupts.in_isr) = true
  · rw [if_pos hc] at h
    simp at h
  · rw [if_neg hc]

/-- C8 (amended): when a step fails on a decode error AND no interrupt was
serviced at the start of that step, the whole simulator state — CPU, data
memory, stack, INTCON, in-ISR latch, peripherals, cycle counter and
statistics — is exactly the state the step started from.  (When an
interrupt IS serviced first, its entry effects — pushed PC, cleared GIE,
PC=0x0004, latch — are committed before the error, as the counterexample
shows.) -/
theorem c8_decode_error_no_commit_amended (s : Simulator)
    (hh : ¬ s.state = SimulatorState.Halted)
    (hsl : s.cpu.sleeping = false)
    (hni : (s.cpu.check_and_handle_interrupts).2 = false)
    (hdec : (InstructionDecoder.decode s.cpu.fetch_instruction).isOk = false) :
    (s.step).1 = s ∧ ((s.step).2).isOk = false := by
  have hcpu := check_and_handle_not_serviced s.cpu hni
  unfold Simulator.step
  rw [if_neg hh, if_neg (by simp [hsl])]
  simp only [Simulator.step_exec]
  rw [hcpu]
  cases hde : InstructionDecoder.decode s.cpu.fetch_instruction with
  | error e => exact ⟨rfl, rfl⟩
  | ok instruction =>
    rw [hde] at hdec
    simp [Except.isOk, Except.toBool] at hdec

/-- Simulator state used to witness the amended decode-error frame
statement: fresh reset state with the undecodable word 0x3FFF at PC 0. -/
def c8w_sim : Simulator :=
  let s0 := Simulator.new.reset
  { s0 with cpu := { s0.cpu with memory := s0.cpu.memory.write_program 0 0x3FFF } }

/-- C8 witness: the amended statement on the reset simulator with an
undecodable word at PC 0 and no pending interrupt. -/
theorem c8_decode_error_no_commit_amended_witness :
    (¬ c8w_sim.state = SimulatorState.Halted ∧
     c8w_sim.cpu.sleeping = false ∧
     (c8w_sim.cpu.check_and_handle_interrupts).2 = false ∧
     (InstructionDecoder.decode c8w_sim.cpu.fetch_instruction).isOk = false) ∧
    ((c8w_sim.step).1 = c8w_sim ∧ ((c8w_sim.step).2).isOk = false) :=
  ⟨⟨by decide, by decide, by decide, by decide⟩,
   c8_decode_error_no_commit_amended c8w_sim (by decide) (by decide)
     (by decide) (by decide)⟩

/-- C9 counterexample: the record ":00000006FA" is well-formed (even length,
minimum size, valid hex) and checksum-valid (00+00+00+06+FA ≡ 0 mod 256),
and its type byte 0x06 is outside {0x00, 0x01, 0x02, 0x04}; yet the loader
rejects it with a parse error instead of accepting and ignoring it. -/
theorem c9_counterexample :
    ((HexRecord.parse ":00000006FA").isOk = false) ∧
    ((HexLoader.load_from_lines [":00000006FA", ":00000001FF"]).isOk = false) ∧
    ((0x00 + 0x00 + 0x00 + 0x06 + 0xFA) % 256 = 0) := by
  decide

/-- C9 (amended): only the two recognised-but-unhandled record types 0x03
(Start Segment Address) and 0x05 (Start Linear Address) are accepted and
ignored — they contribute nothing to the loader state; any record type
byte of 0x06 or above is rejected during parsing with an
invalid-record-type error. -/
theorem c9_unknown_record_types_amended :
    (∀ (st : LoaderState) (r : HexRecord),
        (r.record_type = RecordType.StartSegmentAddress ∨
         r.record_type = RecordType.StartLinearAddress) →
        HexLoader.process_record st r = st) ∧
    (∀ t : Nat, 6 ≤ t → RecordType.from_u8 t = none) ∧
    (∀ bytes : List Nat, 6 ≤ bytes.getD 3 0 →
        (HexRecord.parse_from_bytes bytes).isOk = false) := by
  have hfrom : ∀ t : Nat, 6 ≤ t → RecordType.from_u8 t = none := by
    intro t ht
    unfold RecordType.from_u8
    rw [if_neg (by omega), if_neg (by omega), if_neg (by omega),
        if_neg (by omega), if_neg (by omega), if_neg (by omega)]
  refine ⟨?_, hfrom, ?_⟩
  · intro st r hr
    rcases hr with h | h <;> · unfold HexLoader.process_record; rw [h]
  · intro bytes hb
    unfold HexRecord.parse_from_bytes
    by_cases hlen : bytes.length < 5
    · rw [if_pos hlen]; rfl
    · rw [if_neg hlen, hfrom _ hb]
      rfl

/-- C9 witness: the amended statement at a concrete 0x05-type record, the
type byte 6, and the byte list of ":00000006FA". -/
theorem c9_unknown_record_types_amended_witness :
    (HexLoader.process_record LoaderState.init
       { byte_count := 0, address := 0, record_type := RecordType.StartLinearAddress,
         data := [], checksum := 0xFB } = LoaderState.init) ∧
    (RecordType.from_u8 6 = none) ∧
    ((HexRecord.parse_from_bytes [0x00, 0x00, 0x00, 0x06, 0xFA]).isOk = false) :=
  ⟨c9_unknown_record_types_amended.1 LoaderState.init _ (Or.inr rfl),
   c9_unknown_record_types_amended.2.1 6 (by decide),
   c9_unknown_record_types_amended.2.2 [0x00, 0x00, 0x00, 0x06, 0xFA] (by decide)⟩

/-- The write dispatcher never touches the CPU cycle counter. -/
theorem write_register_cycles (c : Cpu) (a v : Nat) :
    (c.write_register a v).cycles = c.cycles := by
  unfold Cpu.write_register
  dsimp only
  repeat' split
  all_goals rfl

/-- Waking up only rewrites STATUS; the cycle counter is untouched. -/
theorem wake_up_cycles (c : Cpu) (b : Bool) :
    (c.wake_up b).cycles = c.cycles := by
  unfold Cpu.wake_up
  split_ifs <;> rw [write_register_cycles]

/-- The register read dispatcher never looks at the WDT. -/
theorem read_register_wdt_invariant (c : Cpu) (wd : Wdt) (a : Nat) :
    ({ c with wdt := wd } : Cpu).read_register a = c.read_register a := rfl

/-- C10: a step taken while sleeping that returns without executing an
instruction leaves both statistics fields untouched; the still-sleeping
case nevertheless adds 1 to the CPU's own cycle counter (the WDT-wake case
adds nothing), so the CPU cycle counter and the statistics' cycle count
diverge across sleep. -/
theorem c10_sleep_stats_frame (s : Simulator)
    (hh : ¬ s.state = SimulatorState.Halted)
    (hsl : s.cpu.sleeping = true) :
    ((s.cpu.wdt.tick).2 = true →
       (s.step).1.stats = s.stats ∧ (s.step).1.cpu.cycles = s.cpu.cycles) ∧
    ((s.cpu.wdt.tick).2 = false →
       (s.cpu.interrupts.check_interrupts (s.cpu.read_register 0x0B)
          (s.cpu.read_register 0x8C) (s.cpu.read_register 0x0C)).1 = false →
       (s.step).1.stats = s.stats ∧
       (s.step).1.cpu.cycles = s.cpu.cycles + 1) := by
  unfold Simulator.step
  rw [if_neg hh, if_pos hsl]
  constructor
  · intro ht
    rw [if_pos ht]
    exact ⟨rfl, wake_up_cycles _ false⟩
  · intro ht hs
    rw [if_neg (by simp [ht])]
    have hcond : (({ s.cpu with wdt := (s.cpu.wdt.tick).1 }).interrupts.check_interrupts
        (({ s.cpu with wdt := (s.cpu.wdt.tick).1 }).read_register 0x0B)
        (({ s.cpu with wdt := (s.cpu.wdt.tick).1 }).read_register 0x8C)
        (({ s.cpu with wdt := (s.cpu.wdt.tick).1 }).read_register 0x0C)).1 = false := by
      rw [read_register_wdt_invariant, read_register_wdt_invariant,
          read_register_wdt_invariant]
      exact hs
    rw [if_neg (by simp [hcond])]
    exact ⟨rfl, rfl⟩

/-- Sleeping reset simulator used to witness the sleep statistics frame. -/
def c10_sim : Simulator :=
  let s0 := Simulator.new.reset
  { s0 with cpu := { s0.cpu with sleeping := true } }

/-- C10 witness: the sleep statistics frame on a sleeping reset simulator
(whose fresh WDT does not time out and which has no pending interrupt). -/
theorem c10_sleep_stats_frame_witness :
    (¬ c10_sim.state = SimulatorState.Halted ∧ c10_sim.cpu.sleeping = true) ∧
    (((c10_sim.cpu.wdt.tick).2 = true →
        (c10_sim.step).1.stats = c10_sim.stats ∧
        (c10_sim.step).1.cpu.cycles = c10_sim.cpu.cycles) ∧
     ((c10_sim.cpu.wdt.tick).2 = false →
        (c10_sim.cpu.interrupts.check_interrupts (c10_sim.cpu.read_register 0x0B)
           (c10_sim.cpu.read_register 0x8C) (c10_sim.cpu.read_register 0x0C)).1 = false →
        (c10_sim.step).1.stats = c10_sim.stats ∧
        (c10_sim.step).1.cpu.cycles = c10_sim.cpu.cycles + 1)) :=
  ⟨⟨by decide, by decide⟩,
   c10_sleep_stats_frame c10_sim (by decide) (by decide)⟩
